import Mathlib

/-!
Verification of the reconciliation/validation core of the
terraform-provider-proxmox sources (proxmoxtf/utils.go,
proxmox/virtual_environment_network.go and its types file) against its
natural-language specification.  Go functions are shallowly embedded as
executable Lean definitions; dynamically typed Go values (interface
arguments of the terraform validators) become the GoValue inductive, Go
errors become a structured error inductive whose constructors record
exactly the data interpolated into the corresponding fmt.Errorf format
strings.
-/

/-- Model of a Go interface value as consumed by the validators in
proxmoxtf/utils.go: a string, an int, a list of values, or anything else
(all other dynamic types behave alike there, namely every type assertion
fails). -/
inductive GoValue where
  | str (s : String)
  | intV (n : Int)
  | listV (l : List GoValue)
  | otherV

/-- Structured model of the fmt.Errorf errors produced by the validators of
proxmoxtf/utils.go.  Each constructor corresponds to one format string and
records the interpolated data:
typeErr k t        = "expected type of k to be t"
elemTypeErr k i t  = "expected type of k[i] to be t"       (index-tagged)
notInList k got    = "expected k to be one of [...], got"  (StringInSlice, no index)
elemRangeErr k i lo hi got = "expected k[i] to be in the range (lo - hi), got" (index-tagged)
rangeErr k lo hi got       = "expected k to be in the range (lo - hi), got"
patternErr k got   = "expected k to be a valid <pattern> ..., got" -/
inductive ValErr where
  | typeErr (k : String) (t : String)
  | elemTypeErr (k : String) (idx : Nat) (t : String)
  | notInList (k : String) (got : String)
  | elemRangeErr (k : String) (idx : Nat) (lo hi got : Int)
  | rangeErr (k : String) (lo hi got : Int)
  | patternErr (k : String) (got : String)
deriving DecidableEq, Repr

/-- Result pair of a terraform SchemaValidateFunc: warnings and errors. -/
abbrev ValResult := List String × List ValErr

/-- validation.StringInSlice(valid, false) from the terraform-plugin-sdk, as
called by the validators in proxmoxtf/utils.go: on a non-string value one
type error; on a string not in the closed set one membership error (tagged
only with the field path k, never with a list index); otherwise no
warnings and no errors. -/
def stringInSlice (valid : List String) (i : GoValue) (k : String) : ValResult :=
  match i with
  | .str v => if valid.contains v then ([], []) else ([], [.notInList k v])
  | _ => ([], [.typeErr k "string"])

/-- The closed set of signed CPU feature flag tokens from
getCPUFlagsValidator in proxmoxtf/utils.go. -/
def cpuFlagsList : List String :=
  ["+aes", "-aes", "+amd-no-ssb", "-amd-no-ssb", "+amd-ssbd", "-amd-ssbd",
   "+hv-evmcs", "-hv-evmcs", "+hv-tlbflush", "-hv-tlbflush", "+ibpb", "-ibpb",
   "+md-clear", "-md-clear", "+pcid", "-pcid", "+pdpe1gb", "-pdpe1gb",
   "+spec-ctrl", "-spec-ctrl", "+ssbd", "-ssbd", "+virt-ssbd", "-virt-ssbd"]

/-- The element loop of getCPUFlagsValidator (proxmoxtf/utils.go).  For each
element: a non-string element appends an index-tagged type error and
returns; otherwise the element is passed to the StringInSlice validator,
its warnings and errors are appended, and when the accumulated error list
is non-empty the function returns at once (the Go code's
"if len(es) > 0 return"). -/
def cpuFlagsLoop (k : String) (li : Nat) (ws : List String) (es : List ValErr) :
    List GoValue → ValResult
  | [] => (ws, es)
  | lv :: rest =>
    match lv with
    | .str v =>
      let r := stringInSlice cpuFlagsList (.str v) k
      let ws2 := ws ++ r.1
      let es2 := es ++ r.2
      if es2.length > 0 then (ws2, es2) else cpuFlagsLoop k (li + 1) ws2 es2 rest
    | _ => (ws, es ++ [.elemTypeErr k li "string"])

/-- getCPUFlagsValidator from proxmoxtf/utils.go: expects a list value
(otherwise one type error whose Go message names the type
"interface-slice") and scans its elements with cpuFlagsLoop. -/
def getCPUFlagsValidator (i : GoValue) (k : String) : ValResult :=
  match i with
  | .listV l => cpuFlagsLoop k 0 [] [] l
  | _ => ([], [.typeErr k "interface-slice"])

/-- The element loop of getVLANIDsValidator (proxmoxtf/utils.go), bounds
min = 1, max = 4094: a non-int element appends an index-tagged type error
and returns; an int other than -1 outside [1, 4094] appends an
index-tagged range error and returns; otherwise the scan continues.  The
warning list is never extended. -/
def vlanLoop (k : String) (li : Nat) (es : List ValErr) : List GoValue → ValResult
  | [] => ([], es)
  | lv :: rest =>
    match lv with
    | .intV v =>
      if v ≠ -1 then
        if v < 1 ∨ v > 4094 then ([], es ++ [.elemRangeErr k li 1 4094 v])
        else vlanLoop k (li + 1) es rest
      else vlanLoop k (li + 1) es rest
    | _ => ([], es ++ [.elemTypeErr k li "int"])

/-- getVLANIDsValidator from proxmoxtf/utils.go. -/
def getVLANIDsValidator (i : GoValue) (k : String) : ValResult :=
  match i with
  | .listV l => vlanLoop k 0 [] l
  | _ => ([], [.typeErr k "interface-slice"])

/-- Character class [a-z0-9\-_] under the (?i) flag of the file identifier
regular expression in getFileIDValidator (proxmoxtf/utils.go). -/
def isFileIDNameChar (c : Char) : Bool :=
  ('a' ≤ c && c ≤ 'z') || ('A' ≤ c && c ≤ 'Z') || ('0' ≤ c && c ≤ '9') ||
    c == '-' || c == '_'

/-- Matcher for the anchored Go regular expression of getFileIDValidator,
written (?i) X+ colon (Y+ slash)? dot-plus, where X and Y are the class
[a-z0-9\-_] and dot excludes the newline character.  Since colon and slash
are outside the class, only the maximal class run can be followed by the
required literal, so greedy matching with this single backtracking point
(taking or skipping the optional group) is exact. -/
def fileIDRegexMatch (s : String) : Bool :=
  let cs := s.toList
  let p := cs.takeWhile isFileIDNameChar
  let rest := cs.drop p.length
  match p, rest with
  | [], _ => false
  | _ :: _, ':' :: r =>
    (!r.isEmpty && r.all (fun c => c ≠ '\n')) ||
      (let m := r.takeWhile isFileIDNameChar
       let r2 := r.drop m.length
       match m, r2 with
       | _ :: _, '/' :: tail => !tail.isEmpty && tail.all (fun c => c ≠ '\n')
       | _, _ => false)
  | _, _ => false

/-- getFileIDValidator from proxmoxtf/utils.go: a non-string value yields a
type error; the empty string is accepted without consulting the pattern;
any other string is matched against the file identifier regular
expression, a failure yielding one pattern error. -/
def getFileIDValidator (i : GoValue) (k : String) : ValResult :=
  match i with
  | .str v =>
    if v == "" then ([], [])
    else if fileIDRegexMatch v then ([], []) else ([], [.patternErr k v])
  | _ => ([], [.typeErr k "string"])

/-- Character class [A-Z0-9] of the MAC address regular expression in
getMACAddressValidator (proxmoxtf/utils.go): uppercase letters A through Z
or digits, deliberately transcribed as in the source (all uppercase
letters, not only the hexadecimal ones). -/
def isUpperAlnumChar (c : Char) : Bool :=
  ('A' ≤ c && c ≤ 'Z') || ('0' ≤ c && c ≤ '9')

/-- Matcher for the anchored Go regular expression of
getMACAddressValidator: a pair of [A-Z0-9] characters followed by five
colon-prefixed pairs. -/
def macRegexMatch (s : String) : Bool :=
  match s.toList with
  | [a1, a2, ':', b1, b2, ':', c1, c2, ':', d1, d2, ':', e1, e2, ':', f1, f2] =>
    isUpperAlnumChar a1 && isUpperAlnumChar a2 && isUpperAlnumChar b1 &&
      isUpperAlnumChar b2 && isUpperAlnumChar c1 && isUpperAlnumChar c2 &&
      isUpperAlnumChar d1 && isUpperAlnumChar d2 && isUpperAlnumChar e1 &&
      isUpperAlnumChar e2 && isUpperAlnumChar f1 && isUpperAlnumChar f2
  | _ => false

/-- getMACAddressValidator from proxmoxtf/utils.go: a non-string value
yields a type error; the empty string is accepted without consulting the
pattern; any other string is matched against the MAC regular expression, a
failure yielding one pattern error. -/
def getMACAddressValidator (i : GoValue) (k : String) : ValResult :=
  match i with
  | .str v =>
    if v == "" then ([], [])
    else if macRegexMatch v then ([], []) else ([], [.patternErr k v])
  | _ => ([], [.typeErr k "string"])

/-- Uppercase hexadecimal digit, 0-9 or A-F. -/
def isHexUpperChar (c : Char) : Bool :=
  ('0' ≤ c && c ≤ '9') || ('A' ≤ c && c ≤ 'F')

/-- Definition following the specification's words, for comparison with the
code: a MAC address of six uppercase hexadecimal pairs separated by
colons. -/
def isUppercaseHexMAC (s : String) : Bool :=
  match s.toList with
  | [a1, a2, ':', b1, b2, ':', c1, c2, ':', d1, d2, ':', e1, e2, ':', f1, f2] =>
    isHexUpperChar a1 && isHexUpperChar a2 && isHexUpperChar b1 &&
      isHexUpperChar b2 && isHexUpperChar c1 && isHexUpperChar c2 &&
      isHexUpperChar d1 && isHexUpperChar d2 && isHexUpperChar e1 &&
      isHexUpperChar e2 && isHexUpperChar f1 && isHexUpperChar f2
  | _ => false

/-- strings.HasSuffix, on the character lists underlying the strings. -/
def goHasSuffix (s suffix : String) : Bool :=
  suffix.toList.isSuffixOf s.toList

/-- strings.TrimSuffix: drops the suffix when present. -/
def goTrimSuffix (s suffix : String) : String :=
  if goHasSuffix s suffix then
    String.mk (s.toList.take (s.toList.length - suffix.toList.length))
  else s

/-- Digit run accumulator for goAtoi. -/
def digitsToNat (acc : Nat) : List Char → Option Nat
  | [] => some acc
  | c :: cs =>
    if '0' ≤ c && c ≤ '9' then digitsToNat (acc * 10 + (c.toNat - '0'.toNat)) cs
    else none

/-- strconv.Atoi: an optional sign followed by at least one decimal digit;
anything else is a syntax error (64-bit overflow, unreachable for the disk
sizes at hand, is not modelled). -/
def goAtoi (s : String) : Except String Int :=
  let cs := s.toList
  let signed : Bool × List Char :=
    match cs with
    | '-' :: rest => (true, rest)
    | '+' :: rest => (false, rest)
    | _ => (false, cs)
  match signed.2 with
  | [] => .error ("strconv.Atoi: parsing \"" ++ s ++ "\": invalid syntax")
  | _ =>
    match digitsToNat 0 signed.2 with
    | some n => .ok (if signed.1 then -(n : Int) else (n : Int))
    | none => .error ("strconv.Atoi: parsing \"" ++ s ++ "\": invalid syntax")

/-- int(math.Ceil(float64(n) / 1024)): the exact ceiling of n over 1024,
computed with floor division on integers (exact for every value the
float64 computation represents exactly, in particular all disk sizes). -/
def ceilDiv1024 (n : Int) : Int := -(Int.ediv (-n) 1024)

/-- parseDiskSize from proxmoxtf/utils.go.  The Go signature
(size *string) (int, error) is rendered as Option String to Int paired
with Option String (the error message).  A nil pointer yields (0, nil); a
trailing T multiplies the parsed integer by 1024 (int(math.Ceil(
float64(n) * 1024)), exact since the product is an integer); a trailing G
returns the parsed integer; a trailing M divides by 1024 rounding up; any
Atoi failure returns -1 with that error; no recognized suffix returns -1
with the cannot-parse error. -/
def parseDiskSize (size : Option String) : Int × Option String :=
  match size with
  | none => (0, none)
  | some s =>
    if goHasSuffix s "T" then
      match goAtoi (goTrimSuffix s "T") with
      | .error e => (-1, some e)
      | .ok n => (n * 1024, none)
    else if goHasSuffix s "G" then
      match goAtoi (goTrimSuffix s "G") with
      | .error e => (-1, some e)
      | .ok n => (n, none)
    else if goHasSuffix s "M" then
      match goAtoi (goTrimSuffix s "M") with
      | .error e => (-1, some e)
      | .ok n => (ceilDiv1024 n, none)
    else (-1, some ("Cannot parse storage size \"" ++ s ++ "\""))

/-- Modelled from the spec: the platform's device descriptor, section 6,
"{ fileId: optional string, interface: optional string, <other attributes
opaque to this core> }".  The Go struct proxmox.CustomStorageDevice is
declared outside the embedded source files; getDiskInfo reads and writes
exactly its FileID and Interface pointer fields, so those become Option
String here and otherAttrs stands for all remaining attributes. -/
structure CustomStorageDevice where
  FileID : Option String := none
  Interface : Option String := none
  otherAttrs : String := ""
deriving DecidableEq, Repr

/-- The remote VM snapshot as read by getDiskInfo (proxmoxtf/utils.go): one
optional device descriptor per fixed slot, matching the 39 device fields
of proxmox.VirtualEnvironmentVMGetResponseData that getDiskInfo copies
into its storageDevices map. -/
structure VMGetResponseData where
  IDEDevice0 : Option CustomStorageDevice := none
  IDEDevice1 : Option CustomStorageDevice := none
  IDEDevice2 : Option CustomStorageDevice := none
  SATADevice0 : Option CustomStorageDevice := none
  SATADevice1 : Option CustomStorageDevice := none
  SATADevice2 : Option CustomStorageDevice := none
  SATADevice3 : Option CustomStorageDevice := none
  SATADevice4 : Option CustomStorageDevice := none
  SATADevice5 : Option CustomStorageDevice := none
  SCSIDevice0 : Option CustomStorageDevice := none
  SCSIDevice1 : Option CustomStorageDevice := none
  SCSIDevice2 : Option CustomStorageDevice := none
  SCSIDevice3 : Option CustomStorageDevice := none
  SCSIDevice4 : Option CustomStorageDevice := none
  SCSIDevice5 : Option CustomStorageDevice := none
  SCSIDevice6 : Option CustomStorageDevice := none
  SCSIDevice7 : Option CustomStorageDevice := none
  SCSIDevice8 : Option CustomStorageDevice := none
  SCSIDevice9 : Option CustomStorageDevice := none
  SCSIDevice10 : Option CustomStorageDevice := none
  SCSIDevice11 : Option CustomStorageDevice := none
  SCSIDevice12 : Option CustomStorageDevice := none
  SCSIDevice13 : Option CustomStorageDevice := none
  VirtualIODevice0 : Option CustomStorageDevice := none
  VirtualIODevice1 : Option CustomStorageDevice := none
  VirtualIODevice2 : Option CustomStorageDevice := none
  VirtualIODevice3 : Option CustomStorageDevice := none
  VirtualIODevice4 : Option CustomStorageDevice := none
  VirtualIODevice5 : Option CustomStorageDevice := none
  VirtualIODevice6 : Option CustomStorageDevice := none
  VirtualIODevice7 : Option CustomStorageDevice := none
  VirtualIODevice8 : Option CustomStorageDevice := none
  VirtualIODevice9 : Option CustomStorageDevice := none
  VirtualIODevice10 : Option CustomStorageDevice := none
  VirtualIODevice11 : Option CustomStorageDevice := none
  VirtualIODevice12 : Option CustomStorageDevice := none
  VirtualIODevice13 : Option CustomStorageDevice := none
  VirtualIODevice14 : Option CustomStorageDevice := none
  VirtualIODevice15 : Option CustomStorageDevice := none
deriving DecidableEq, Repr

/-- The fixed 39-slot key universe, in the order the Go code fills its
storageDevices map: ide0-ide2, sata0-sata5, scsi0-scsi13,
virtio0-virtio15. -/
def slotUniverse : List String :=
  ["ide0", "ide1", "ide2",
   "sata0", "sata1", "sata2", "sata3", "sata4", "sata5",
   "scsi0", "scsi1", "scsi2", "scsi3", "scsi4", "scsi5", "scsi6", "scsi7",
   "scsi8", "scsi9", "scsi10", "scsi11", "scsi12", "scsi13",
   "virtio0", "virtio1", "virtio2", "virtio3", "virtio4", "virtio5",
   "virtio6", "virtio7", "virtio8", "virtio9", "virtio10", "virtio11",
   "virtio12", "virtio13", "virtio14", "virtio15"]

/-- The snapshot field assigned to each slot key by the storageDevices
assignments of getDiskInfo. -/
def slotField (vm : VMGetResponseData) : String → Option CustomStorageDevice
  | "ide0" => vm.IDEDevice0
  | "ide1" => vm.IDEDevice1
  | "ide2" => vm.IDEDevice2
  | "sata0" => vm.SATADevice0
  | "sata1" => vm.SATADevice1
  | "sata2" => vm.SATADevice2
  | "sata3" => vm.SATADevice3
  | "sata4" => vm.SATADevice4
  | "sata5" => vm.SATADevice5
  | "scsi0" => vm.SCSIDevice0
  | "scsi1" => vm.SCSIDevice1
  | "scsi2" => vm.SCSIDevice2
  | "scsi3" => vm.SCSIDevice3
  | "scsi4" => vm.SCSIDevice4
  | "scsi5" => vm.SCSIDevice5
  | "scsi6" => vm.SCSIDevice6
  | "scsi7" => vm.SCSIDevice7
  | "scsi8" => vm.SCSIDevice8
  | "scsi9" => vm.SCSIDevice9
  | "scsi10" => vm.SCSIDevice10
  | "scsi11" => vm.SCSIDevice11
  | "scsi12" => vm.SCSIDevice12
  | "scsi13" => vm.SCSIDevice13
  | "virtio0" => vm.VirtualIODevice0
  | "virtio1" => vm.VirtualIODevice1
  | "virtio2" => vm.VirtualIODevice2
  | "virtio3" => vm.VirtualIODevice3
  | "virtio4" => vm.VirtualIODevice4
  | "virtio5" => vm.VirtualIODevice5
  | "virtio6" => vm.VirtualIODevice6
  | "virtio7" => vm.VirtualIODevice7
  | "virtio8" => vm.VirtualIODevice8
  | "virtio9" => vm.VirtualIODevice9
  | "virtio10" => vm.VirtualIODevice10
  | "virtio11" => vm.VirtualIODevice11
  | "virtio12" => vm.VirtualIODevice12
  | "virtio13" => vm.VirtualIODevice13
  | "virtio14" => vm.VirtualIODevice14
  | "virtio15" => vm.VirtualIODevice15
  | _ => none

/-- One user disk declaration, as read by getDiskInfo from the terraform
resource data: the interface slot name it is keyed by, and the optional
file_id attribute (none models both a missing and a nil map entry). -/
structure DiskEntry where
  interface : String
  fileID : Option String := none
deriving DecidableEq, Repr

/-- The currentDiskMap construction of getDiskInfo: each declaration in
list order is stored under its interface key, a later duplicate key
overwriting an earlier one. -/
def buildDiskMap (l : List DiskEntry) : String → Option DiskEntry :=
  l.foldl (fun m e => fun s => if s = e.interface then some e else m s) (fun _ => none)

/-- The last element of a list (empty default), modelling the final value
of the shared range variable k after the merge loop of getDiskInfo has
visited every key of the storageDevices map. -/
def lastKey : List String → String
  | [] => ""
  | [k] => k
  | _ :: k :: ks => lastKey (k :: ks)

/-- The per-device effect of the merge loop of getDiskInfo on a device
present at slot k.  The loop body runs v.FileID = &fileID with a fresh
per-iteration variable when the declaration map has an entry for k whose
file_id is non-nil, and always runs v.Interface = &k.  Because k is the
single range variable of the loop (Go before 1.22 reuses one variable for
all iterations) and the loop visits every key, every device's Interface
pointer ends up at the one variable whose final content is the last key
iterated, here the lastK argument. -/
def stampDevice (dm : String → Option DiskEntry) (lastK k : String)
    (v : CustomStorageDevice) : CustomStorageDevice :=
  let v1 :=
    match dm k with
    | some e =>
      match e.fileID with
      | some fid => { v with FileID := some fid }
      | none => v
    | none => v
  { v1 with Interface := some lastK }

/-- getDiskInfo from proxmoxtf/utils.go: the returned storageDevices map as
an association list over the fixed 39-slot universe.  The order argument
is the (unspecified) iteration order of the Go map range loop, a
permutation of the 39 keys; the table contents depend on it only through
the final value of the shared loop variable, lastKey order.  A nil
snapshot field stays nil, the merge loop's if v != nil guard; a non-nil
device is updated in place through its pointer, stampDevice. -/
def getDiskInfo (order : List String) (vm : VMGetResponseData)
    (decls : List DiskEntry) : List (String × Option CustomStorageDevice) :=
  slotUniverse.map fun k =>
    (k, (slotField vm k).map (stampDevice (buildDiskMap decls) (lastKey order) k))

/-- The observable state of the snapshot argument after getDiskInfo
returns, read field by field: slotFieldAfter order vm decls k is the value
of the snapshot field for slot k once the call has finished.  The Go map
stores the very pointers held by the vm struct and the merge loop writes
through them (v.FileID = &fileID, v.Interface = &k), so after the call
every non-nil device field of vm has been updated by stampDevice, while
nil fields are untouched. -/
def slotFieldAfter (order : List String) (vm : VMGetResponseData)
    (decls : List DiskEntry) (k : String) : Option CustomStorageDevice :=
  (slotField vm k).map (stampDevice (buildDiskMap decls) (lastKey order) k)

/-- A snapshot with no device at any slot. -/
def vmEmpty : VMGetResponseData := {}

/-- A snapshot with devices at scsi0 and scsi1 only. -/
def vmTwoDisks : VMGetResponseData :=
  { SCSIDevice0 := some { otherAttrs := "d0" },
    SCSIDevice1 := some { otherAttrs := "d1" } }

/-- A snapshot with one device at scsi2 carrying no file id. -/
def vmOneDisk : VMGetResponseData := { SCSIDevice2 := some {} }

/-- A declaration list assigning a file id to slot scsi2. -/
def declsScsi2 : List DiskEntry := [{ interface := "scsi2", fileID := some "local:iso/x.img" }]

/-- VirtualEnvironmentNetworkListResponseData from
proxmox/virtual_environment_network_types.go: address, priority, type
(the json priority field defaults to the zero value when omitted). -/
structure NetRecord where
  address : String
  priority : Int
  ty : String
deriving DecidableEq, Repr, Inhabited

/-- Element read of the sorted slice (out-of-range reads never occur on the
index ranges the sort uses). -/
def aget (d : Array NetRecord) (i : Nat) : NetRecord := d.getD i default

/-- The less closure passed to sort.Slice by ListNetworks:
resBody.Data[i].Priority < resBody.Data[j].Priority. -/
abbrev lessAt (d : Array NetRecord) (i j : Nat) : Prop :=
  (aget d i).priority < (aget d j).priority

/-- data.Swap(i, j). -/
def aswap (d : Array NetRecord) (i j : Nat) : Array NetRecord :=
  let vi := aget d i
  let vj := aget d j
  (d.set! i vj).set! j vi

/-!
The following definitions transcribe the sort run by sort.Slice of the Go
standard library as shipped with the Go releases contemporary with this
code base (the pre-1.19 sort.go / zfuncversion: insertion sort with a
gap-6 shell pass below 13 elements, quicksort with median-of-three
pivoting and a heapsort fallback above).  Loops whose counters move by one
towards a fixed bound become structural recursions on that counter; the
remaining loops take an explicit iteration budget (first argument) that is
at least the bound the Go loop respects, so the budget is never exhausted
on the index ranges the algorithm passes in.  All index arithmetic stays
in Nat; every subtraction in the Go source occurs at a program point where
the result is provably non-negative.
-/

/-- insertionSort's inner loop: for j := i; j > a and Less(j, j-1); j--
swap j (j-1). -/
def insInner (a : Nat) : Nat → Array NetRecord → Array NetRecord
  | 0, d => d
  | j + 1, d =>
    if j + 1 > a ∧ lessAt d (j + 1) j then insInner a j (aswap d (j + 1) j) else d

/-- insertionSort's outer loop over i, counted by n = b - i. -/
def insOuter (a : Nat) : Nat → Nat → Array NetRecord → Array NetRecord
  | _, 0, d => d
  | i, n + 1, d => insOuter a (i + 1) n (insInner a i d)

/-- insertionSort(data, a, b) of the Go sort package. -/
def insertionSortGo (d : Array NetRecord) (a b : Nat) : Array NetRecord :=
  insOuter a (a + 1) (b - (a + 1)) d

/-- siftDown's loop; root strictly increases below hi each iteration, so
the budget hi + 1 is never exhausted. -/
def siftLoop (hi first : Nat) : Nat → Nat → Array NetRecord → Array NetRecord
  | 0, _, d => d
  | f + 1, root, d =>
    let child := 2 * root + 1
    if child ≥ hi then d
    else
      let child := if child + 1 < hi ∧ lessAt d (first + child) (first + child + 1)
        then child + 1 else child
      if ¬lessAt d (first + root) (first + child) then d
      else siftLoop hi first f child (aswap d (first + root) (first + child))

/-- siftDown(data, lo, hi, first) of the Go sort package. -/
def siftDownGo (d : Array NetRecord) (lo hi first : Nat) : Array NetRecord :=
  siftLoop hi first (hi + 1) lo d

/-- heapSort's build loop: for i := (hi-1)/2; i >= 0; i--
siftDown(data, i, hi, first); counted so that count n+1 processes i = n. -/
def heapLoop1 (hi first : Nat) : Nat → Array NetRecord → Array NetRecord
  | 0, d => d
  | n + 1, d => heapLoop1 hi first n (siftDownGo d n hi first)

/-- heapSort's extraction loop: for i := hi-1; i >= 0; i--
Swap(first, first+i); siftDown(data, lo, i, first) with lo = 0. -/
def heapLoop2 (first : Nat) : Nat → Array NetRecord → Array NetRecord
  | 0, d => d
  | n + 1, d => heapLoop2 first n (siftDownGo (aswap d first (first + n)) 0 n first)

/-- heapSort(data, a, b) of the Go sort package. -/
def heapSortGo (d : Array NetRecord) (a b : Nat) : Array NetRecord :=
  let first := a
  let hi := b - a
  heapLoop2 first hi (heapLoop1 hi first ((hi - 1) / 2 + 1) d)

/-- medianOfThree(data, m1, m0, m2) of the Go sort package. -/
def medianOfThreeGo (d : Array NetRecord) (m1 m0 m2 : Nat) : Array NetRecord :=
  let d1 := if lessAt d m1 m0 then aswap d m1 m0 else d
  if lessAt d1 m2 m1 then
    let d2 := aswap d1 m2 m1
    if lessAt d2 m1 m0 then aswap d2 m1 m0 else d2
  else d1

/-- doPivot's opening scan: for ; a < c and Less(a, pivot); a++. -/
def dpALoop (pivot c : Nat) (d : Array NetRecord) : Nat → Nat → Nat
  | 0, a => a
  | f + 1, a => if a < c ∧ lessAt d a pivot then dpALoop pivot c d f (a + 1) else a

/-- doPivot's forward scan: for ; b < c and not Less(pivot, b); b++. -/
def dpBLoop (pivot c : Nat) (d : Array NetRecord) : Nat → Nat → Nat
  | 0, b => b
  | f + 1, b => if b < c ∧ ¬lessAt d pivot b then dpBLoop pivot c d f (b + 1) else b

/-- doPivot's backward scan: for ; b < c and Less(pivot, c-1); c--. -/
def dpCLoop (pivot b : Nat) (d : Array NetRecord) : Nat → Nat → Nat
  | 0, c => c
  | f + 1, c => if b < c ∧ lessAt d pivot (c - 1) then dpCLoop pivot b d f (c - 1) else c

/-- doPivot's partitioning loop: advance b, retreat c, stop when b >= c,
otherwise Swap(b, c-1), b++, c--.  The gap c - b shrinks every iteration,
so a budget of the initial c covers every run. -/
def dpMain (pivot : Nat) : Nat → Nat → Nat → Array NetRecord →
    Array NetRecord × Nat × Nat
  | 0, b, c, d => (d, b, c)
  | f + 1, b, c, d =>
    let b1 := dpBLoop pivot c d (c + 1) b
    let c1 := dpCLoop pivot b1 d (c + 1) c
    if b1 ≥ c1 then (d, b1, c1)
    else dpMain pivot f (b1 + 1) (c1 - 1) (aswap d b1 (c1 - 1))

/-- The b-retreat scan of doPivot's duplicate-protection loop:
for ; a < b and not Less(b-1, pivot); b--. -/
def dpPBLoop (pivot a : Nat) (d : Array NetRecord) : Nat → Nat → Nat
  | 0, b => b
  | f + 1, b => if a < b ∧ ¬lessAt d (b - 1) pivot then dpPBLoop pivot a d f (b - 1) else b

/-- The a-advance scan of doPivot's duplicate-protection loop:
for ; a < b and Less(a, pivot); a++. -/
def dpPALoop (pivot b : Nat) (d : Array NetRecord) : Nat → Nat → Nat
  | 0, a => a
  | f + 1, a => if a < b ∧ lessAt d a pivot then dpPALoop pivot b d f (a + 1) else a

/-- doPivot's duplicate-protection loop: retreat b over elements equal to
the pivot, advance a over smaller ones, stop when a >= b, otherwise
Swap(a, b-1), a++, b--. -/
def dpProtLoop (pivot : Nat) : Nat → Nat → Nat → Array NetRecord →
    Array NetRecord × Nat × Nat
  | 0, a, b, d => (d, a, b)
  | f + 1, a, b, d =>
    let b1 := dpPBLoop pivot a d (b + 1) b
    let a1 := dpPALoop pivot b1 d (b1 + 1) a
    if a1 ≥ b1 then (d, a1, b1)
    else dpProtLoop pivot f (a1 + 1) (b1 - 1) (aswap d a1 (b1 - 1))

/-- doPivot(data, lo, hi) of the Go sort package, returning the array and
(midlo, midhi).  Only called with hi - lo > 12. -/
def doPivotGo (d : Array NetRecord) (lo hi : Nat) : Array NetRecord × Nat × Nat :=
  let m := (lo + hi) / 2
  let d0 :=
    if hi - lo > 40 then
      let s := (hi - lo) / 8
      let da := medianOfThreeGo d lo (lo + s) (lo + 2 * s)
      let db := medianOfThreeGo da m (m - s) (m + s)
      medianOfThreeGo db (hi - 1) (hi - 1 - s) (hi - 1 - 2 * s)
    else d
  let d1 := medianOfThreeGo d0 lo m (hi - 1)
  let pivot := lo
  let a := dpALoop pivot (hi - 1) d1 hi (lo + 1)
  let mres := dpMain pivot hi a (hi - 1) d1
  let d2 := mres.1
  let b := mres.2.1
  let c := mres.2.2
  let protect := hi - c < 5
  let step :=
    if ¬protect ∧ hi - c < (hi - lo) / 4 then
      let s1 : Array NetRecord × Nat × Nat × Nat :=
        if ¬lessAt d2 pivot (hi - 1) then (aswap d2 c (hi - 1), c + 1, b, 1)
        else (d2, c, b, 0)
      let d3 := s1.1
      let c2 := s1.2.1
      let b2 := s1.2.2.1
      let dups1 := s1.2.2.2
      let s2 : Nat × Nat :=
        if ¬lessAt d3 (b2 - 1) pivot then (b2 - 1, dups1 + 1) else (b2, dups1)
      let b3 := s2.1
      let dups2 := s2.2
      let s3 : Array NetRecord × Nat × Nat :=
        if ¬lessAt d3 m (b3 - 1) then (aswap d3 m (b3 - 1), b3 - 1, dups2 + 1)
        else (d3, b3, dups2)
      (s3.1, s3.2.1, c2, decide (s3.2.2 > 1))
    else (d2, b, c, decide protect)
  let d4 := step.1
  let b4 := step.2.1
  let c4 := step.2.2.1
  let protect2 := step.2.2.2
  let fin :=
    if protect2 then
      let p := dpProtLoop pivot b4 a b4 d4
      (p.1, p.2.2)
    else (d4, b4)
  let d5 := fin.1
  let b5 := fin.2
  (aswap d5 pivot (b5 - 1), b5 - 1, c4)

/-- The gap-6 shell pass run by quickSort on segments of 2 to 12 elements:
for i := a+6; i < b; i++ if Less(i, i-6) Swap(i, i-6); counted by b-i. -/
def shellLoop : Nat → Nat → Array NetRecord → Array NetRecord
  | 0, _, d => d
  | n + 1, i, d => shellLoop n (i + 1) (if lessAt d i (i - 6) then aswap d i (i - 6) else d)

/-- quickSort(data, a, b, maxDepth) of the Go sort package.  The Go
function's trailing loop (continue with the larger half after recursing
into the smaller) is rendered as the equivalent tail call; the budget
argument bounds the combined loop/recursion nesting, which never exceeds
the segment length, so the top-level call's budget of length + 2 is never
exhausted. -/
def quickSortGo : Nat → Array NetRecord → Nat → Nat → Nat → Array NetRecord
  | 0, d, _, _, _ => d
  | f + 1, d, a, b, depth =>
    if b - a > 12 then
      if depth = 0 then heapSortGo d a b
      else
        let r := doPivotGo d a b
        let d1 := r.1
        let mlo := r.2.1
        let mhi := r.2.2
        if mlo - a < b - mhi then
          quickSortGo f (quickSortGo f d1 a mlo (depth - 1)) mhi b (depth - 1)
        else
          quickSortGo f (quickSortGo f d1 mhi b (depth - 1)) a mlo (depth - 1)
    else
      if b - a > 1 then
        insertionSortGo (shellLoop (b - (a + 6)) (a + 6) d) a b
      else d

/-- maxDepth(n) of the Go sort package: 2 * (number of halvings of n down
to 0); the halving loop is counted by a budget of n + 1, never exhausted
since n halves each step. -/
def goMaxDepthLoop : Nat → Nat → Nat
  | 0, _ => 0
  | f + 1, i => if i > 0 then goMaxDepthLoop f (i / 2) + 1 else 0

/-- maxDepth(n) = depth * 2. -/
def goMaxDepth (n : Nat) : Nat := 2 * goMaxDepthLoop (n + 1) n

/-- sort.Slice(resBody.Data, less-by-priority): quickSort over the whole
slice with the computed depth bound. -/
def sortSliceNetGo (l : List NetRecord) : List NetRecord :=
  (quickSortGo (l.length + 2) l.toArray 0 l.length (goMaxDepth l.length)).toList

/-- The outcome of the DoRequest call inside ListNetworks: either a
transport error, or a decoded response body whose Data field is either
absent (nil slice) or a list of records. -/
inductive RestResult where
  | err (msg : String)
  | ok (data : Option (List NetRecord))

/-- ListNetworks from proxmox/virtual_environment_network.go, as a function
of the DoRequest outcome: a transport error is returned unchanged (with a
nil record slice, here the error side of Except); a response without a
data object raises the protocol error; otherwise the records are sorted by
ascending priority with sort.Slice and returned. -/
def ListNetworks (r : RestResult) : Except String (List NetRecord) :=
  match r with
  | .err e => .error e
  | .ok none => .error "The server did not include a data object in the response"
  | .ok (some data) => .ok (sortSliceNetGo data)

/-- The seven-record response on which sort.Slice reorders the two
equal-priority records: the shell pass swaps positions 0 and 6 (priority 3
under priority 5), carrying the later equal-priority record in front of
the earlier one, and the stable insertion sort then keeps that inverted
order. -/
def netC4 : List NetRecord :=
  [⟨"r0", 5, ""⟩, ⟨"eqA", 3, ""⟩, ⟨"x2", 9, ""⟩, ⟨"x3", 9, ""⟩,
   ⟨"x4", 9, ""⟩, ⟨"x5", 9, ""⟩, ⟨"eqB", 3, ""⟩]

/-- Helper: looking a key up in a table that pairs every list element with
a function of itself returns that function of the key, whenever the key is
in the list. -/
theorem lookup_map_self {β : Type} (f : String → β) (k : String) :
    ∀ l : List String, k ∈ l →
      List.lookup k (l.map fun s => (s, f s)) = some (f k) := by
  intro l hl
  induction l with
  | nil => cases hl
  | cons s t ih =>
    by_cases hk : k = s
    · subst hk
      simp [List.lookup]
    · rcases List.mem_cons.mp hl with h | h
      · exact absurd h hk
      · simpa [List.lookup, beq_eq_false_iff_ne.mpr hk] using ih h

/-- Helper: the StringInSlice validator reports at most one error. -/
theorem stringInSlice_errs_le_one (valid : List String) (i : GoValue) (k : String) :
    (stringInSlice valid i k).2.length ≤ 1 := by
  cases i <;> simp [stringInSlice]
  split <;> simp

/-- Helper: the CPU flags element loop, entered with an empty error
accumulator as getCPUFlagsValidator always does, reports at most one
error: it returns upon the first one. -/
theorem cpuFlagsLoop_errs_le_one (k : String) :
    ∀ (l : List GoValue) (li : Nat) (ws : List String),
      (cpuFlagsLoop k li ws [] l).2.length ≤ 1 := by
  intro l
  induction l with
  | nil => intro li ws; simp [cpuFlagsLoop]
  | cons lv rest ih =>
    intro li ws
    cases lv with
    | str v =>
      simp only [cpuFlagsLoop, List.nil_append]
      split
      · simpa using stringInSlice_errs_le_one cpuFlagsList (.str v) k
      · rename_i hlen
        have h0 : (stringInSlice cpuFlagsList (.str v) k).2 = [] := by
          have := Nat.eq_zero_of_not_pos hlen
          exact List.eq_nil_of_length_eq_zero this
        rw [h0]
        exact ih (li + 1) (ws ++ (stringInSlice cpuFlagsList (.str v) k).1)
    | intV n => simp [cpuFlagsLoop]
    | listV l2 => simp [cpuFlagsLoop]
    | otherV => simp [cpuFlagsLoop]

/-- Helper: the VLAN id element loop, entered with an empty error
accumulator as getVLANIDsValidator always does, reports at most one
error: it returns upon the first one. -/
theorem vlanLoop_errs_le_one (k : String) :
    ∀ (l : List GoValue) (li : Nat), (vlanLoop k li [] l).2.length ≤ 1 := by
  intro l
  induction l with
  | nil => intro li; simp [vlanLoop]
  | cons lv rest ih =>
    intro li
    cases lv with
    | intV v =>
      simp only [vlanLoop]
      split
      · split
        · simp
        · exact ih (li + 1)
      · exact ih (li + 1)
    | str s => simp [vlanLoop]
    | listV l2 => simp [vlanLoop]
    | otherV => simp [vlanLoop]

/-- C1: for every iteration order, remote snapshot and declaration list,
the key column of the table returned by getDiskInfo is exactly the fixed
39-slot universe ide0-ide2, sata0-sata5, scsi0-scsi13, virtio0-virtio15,
which has 39 pairwise distinct entries: never more keys, never fewer. -/
theorem getDiskInfo_keySet :
    ∀ (order : List String) (vm : VMGetResponseData) (decls : List DiskEntry),
      (getDiskInfo order vm decls).map Prod.fst = slotUniverse ∧
      slotUniverse.length = 39 ∧ slotUniverse.Nodup := by
  intro order vm decls
  exact ⟨rfl, rfl, by decide⟩

/-- C2: whenever the remote snapshot reports no device at a slot of the
universe, the getDiskInfo table maps that slot to an unassigned (nil)
entry, whatever the declarations say: a declaration never materializes a
device at a remotely empty slot. -/
theorem getDiskInfo_no_materialize :
    ∀ (order : List String) (vm : VMGetResponseData) (decls : List DiskEntry) (k : String),
      slotField vm k = none → k ∈ slotUniverse →
      List.lookup k (getDiskInfo order vm decls) = some none := by
  intro order vm decls k h hk
  have h2 := lookup_map_self
    (fun s => (slotField vm s).map (stampDevice (buildDiskMap decls) (lastKey order) s))
    k slotUniverse hk
  simpa [getDiskInfo, h] using h2

/-- Witness for getDiskInfo_no_materialize: slot scsi2 is empty in the
empty snapshot and remains unassigned even under a declaration that
assigns it a file id. -/
theorem getDiskInfo_no_materialize_witness :
    slotField vmEmpty "scsi2" = none ∧ "scsi2" ∈ slotUniverse ∧
    List.lookup "scsi2" (getDiskInfo slotUniverse vmEmpty declsScsi2) = some none :=
  ⟨rfl, by decide,
    getDiskInfo_no_materialize slotUniverse vmEmpty declsScsi2 "scsi2" rfl (by decide)⟩

/-- C3 (code bug): on a snapshot occupying scsi0 and scsi1, for every map
iteration order the two output descriptors carry the same interface value
(both Interface pointers alias the single range variable k of the merge
loop), so they can never simultaneously name their own slots; the intended
per-slot stamping of utils.go line 454 is defeated by taking the address
of the loop variable. -/
theorem getDiskInfo_interface_aliased :
    ∀ order : List String, ∃ d0 d1 : CustomStorageDevice,
      List.lookup "scsi0" (getDiskInfo order vmTwoDisks []) = some (some d0) ∧
      List.lookup "scsi1" (getDiskInfo order vmTwoDisks []) = some (some d1) ∧
      d0.Interface = d1.Interface ∧
      ¬(d0.Interface = some "scsi0" ∧ d1.Interface = some "scsi1") := by
  intro order
  refine ⟨⟨none, some (lastKey order), "d0"⟩, ⟨none, some (lastKey order), "d1"⟩,
    rfl, rfl, rfl, ?_⟩
  rintro ⟨h1, h2⟩
  have h3 : (some "scsi0" : Option String) = some "scsi1" := h1.symm.trans h2
  exact absurd h3 (by decide)

/-- C4 (code bug): ListNetworks sorts with sort.Slice, which is not
stable.  On this seven-record response the pre-1.19 Go sort (a gap-6 shell
pass followed by insertion sort on segments this short) returns the two
priority-3 records in the opposite of their arrival order: eqA arrives
before eqB but eqB is returned first. -/
theorem ListNetworks_unstable_at_equal_priorities :
    ListNetworks (.ok (some netC4)) =
      .ok [⟨"eqB", 3, ""⟩, ⟨"eqA", 3, ""⟩, ⟨"r0", 5, ""⟩, ⟨"x2", 9, ""⟩,
        ⟨"x3", 9, ""⟩, ⟨"x4", 9, ""⟩, ⟨"x5", 9, ""⟩] ∧
    netC4 = [⟨"r0", 5, ""⟩, ⟨"eqA", 3, ""⟩, ⟨"x2", 9, ""⟩, ⟨"x3", 9, ""⟩,
      ⟨"x4", 9, ""⟩, ⟨"x5", 9, ""⟩, ⟨"eqB", 3, ""⟩] :=
  ⟨rfl, rfl⟩

/-- C5 counterexample: two invalid elements yield one error, not one error
per invalid element; the CPU flags membership error moreover carries no
element index. -/
theorem listValidators_first_error_only_cex :
    (getCPUFlagsValidator (.listV [.str "+bogus", .str "-bogus"]) "cpu_flags").2 =
      [.notInList "cpu_flags" "+bogus"] ∧
    (getCPUFlagsValidator (.listV [.str "+bogus", .str "-bogus"]) "cpu_flags").2.length = 1 ∧
    (getVLANIDsValidator (.listV [.intV 0, .intV 4095]) "vlan_ids").2 =
      [.elemRangeErr "vlan_ids" 0 1 4094 0] ∧
    (getVLANIDsValidator (.listV [.intV 0, .intV 4095]) "vlan_ids").2.length = 1 := by
  decide

/-- C5 as amended: the CPU flags and VLAN id list validators stop at the
first violation, so on every input they report at most one error (type
errors are index-tagged; the CPU flags membership error carries only the
field path). -/
theorem listValidators_at_most_one_error :
    ∀ (i : GoValue) (k : String),
      (getCPUFlagsValidator i k).2.length ≤ 1 ∧
      (getVLANIDsValidator i k).2.length ≤ 1 := by
  intro i k
  constructor
  · cases i with
    | listV l => exact cpuFlagsLoop_errs_le_one k l 0 []
    | str s => simp [getCPUFlagsValidator]
    | intV n => simp [getCPUFlagsValidator]
    | otherV => simp [getCPUFlagsValidator]
  · cases i with
    | listV l => exact vlanLoop_errs_le_one k l 0
    | str s => simp [getVLANIDsValidator]
    | intV n => simp [getVLANIDsValidator]
    | otherV => simp [getVLANIDsValidator]

/-- C6: ListNetworks propagates transport errors unchanged, raises exactly
the documented protocol error when the data object is absent, returns the
empty sequence without error when the data list is present but empty, and
succeeds on every present data list. -/
theorem ListNetworks_data_shape :
    (∀ e : String, ListNetworks (.err e) = .error e) ∧
    ListNetworks (.ok none) =
      .error "The server did not include a data object in the response" ∧
    ListNetworks (.ok (some [])) = .ok [] ∧
    (∀ l : List NetRecord, ListNetworks (.ok (some l)) = .ok (sortSliceNetGo l)) :=
  ⟨fun _ => rfl, rfl, rfl, fun _ => rfl⟩

/-- C7: the documented parseDiskSize behaviors: 2T gives 2048, 512M and
1024M give 1, 10G gives 10, nil gives 0 with no error, 5X fails with the
cannot-parse error and sentinel -1, and a non-numeric leading portion
(abcT) fails with the Atoi parse error and sentinel -1. -/
theorem parseDiskSize_examples :
    parseDiskSize (some "2T") = (2048, none) ∧
    parseDiskSize (some "512M") = (1, none) ∧
    parseDiskSize (some "1024M") = (1, none) ∧
    parseDiskSize (some "10G") = (10, none) ∧
    parseDiskSize none = (0, none) ∧
    parseDiskSize (some "5X") = (-1, some "Cannot parse storage size \"5X\"") ∧
    parseDiskSize (some "abcT") =
      (-1, some "strconv.Atoi: parsing \"abc\": invalid syntax") := by
  decide

/-- C8 counterexample: the MAC validator accepts GG:GG:GG:GG:GG:GG, a
string that is not made of hexadecimal pairs, because the source's
character class is [A-Z0-9]; lowercase input is still rejected with a
pattern error. -/
theorem macValidator_accepts_nonhex_cex :
    (getMACAddressValidator (.str "GG:GG:GG:GG:GG:GG") "mac_address").2 = [] ∧
    isUppercaseHexMAC "GG:GG:GG:GG:GG:GG" = false ∧
    macRegexMatch "GG:GG:GG:GG:GG:GG" = true ∧
    (getMACAddressValidator (.str "a0:b1:c2:d3:e4:f5") "mac_address").2 =
      [.patternErr "mac_address" "a0:b1:c2:d3:e4:f5"] := by
  decide

/-- C8 as amended: a non-empty string is accepted by the MAC validator
exactly when it is six colon-separated pairs of uppercase alphanumeric
characters (A-Z or 0-9, the source's class), so lowercase input is
rejected rather than normalized, but non-hexadecimal uppercase letters are
accepted. -/
theorem macValidator_accepts_iff_upper_alnum :
    ∀ s k : String, s ≠ "" →
      ((getMACAddressValidator (.str s) k).2 = [] ↔ macRegexMatch s = true) := by
  intro s k hs
  have hbeq : (s == "") = false := beq_eq_false_iff_ne.mpr hs
  by_cases h : macRegexMatch s
  · simp [getMACAddressValidator, hbeq, h]
  · simp [getMACAddressValidator, hbeq, h]

/-- Witness for macValidator_accepts_iff_upper_alnum at the documented
valid MAC address. -/
theorem macValidator_accepts_iff_upper_alnum_witness :
    ("A0:B1:C2:D3:E4:F5" ≠ "") ∧
    (((getMACAddressValidator (.str "A0:B1:C2:D3:E4:F5") "mac_address").2 = []) ↔
      macRegexMatch "A0:B1:C2:D3:E4:F5" = true) :=
  ⟨by decide, macValidator_accepts_iff_upper_alnum "A0:B1:C2:D3:E4:F5" "mac_address" (by decide)⟩

/-- C9 counterexample: getDiskInfo writes through the snapshot's device
pointers.  With a device at scsi2 and a declaration assigning it a file
id, the descriptor reachable from the snapshot after the call (its file id
overwritten, its interface pointed at the loop variable, whose final value
under the insertion iteration order is virtio15) differs from the
descriptor before the call: the snapshot is mutated, not read-only. -/
theorem getDiskInfo_mutates_snapshot_cex :
    slotField vmOneDisk "scsi2" = some ⟨none, none, ""⟩ ∧
    slotFieldAfter slotUniverse vmOneDisk declsScsi2 "scsi2" =
      some ⟨some "local:iso/x.img", some "virtio15", ""⟩ ∧
    slotFieldAfter slotUniverse vmOneDisk declsScsi2 "scsi2" ≠
      slotField vmOneDisk "scsi2" := by
  refine ⟨rfl, rfl, ?_⟩
  decide

/-- C9 as amended: the merged attributes do not appear only in a fresh
output table; getDiskInfo updates the snapshot's descriptors in place, and
the returned table pairs every slot of the universe with exactly the
descriptor the snapshot holds after the call (nil slots staying nil). -/
theorem getDiskInfo_table_matches_snapshot_after :
    ∀ (order : List String) (vm : VMGetResponseData) (decls : List DiskEntry),
      getDiskInfo order vm decls =
        slotUniverse.map fun k => (k, slotFieldAfter order vm decls k) := by
  intro order vm decls
  rfl

/-- C10: the empty string is accepted by both the file id validator and
the MAC validator with no warnings and no errors, although it matches
neither of the two patterns. -/
theorem emptyString_validators_accept :
    ∀ k : String,
      getFileIDValidator (.str "") k = ([], []) ∧
      getMACAddressValidator (.str "") k = ([], []) ∧
      fileIDRegexMatch "" = false ∧ macRegexMatch "" = false := by
  intro k
  exact ⟨rfl, rfl, rfl, rfl⟩
